import Mathlib

/-!
Verification development for the HedgeDoc realtime editing subsystem.

The definitions below are shallow embeddings of the TypeScript sources:
`extract-note-id-from-realtime-path.ts`, `websocket-connection.ts`,
`connection-keep-alive-ping.ts`, `realtime-note.ts`, `websocket-doc.ts`,
`realtime-note.service.ts` and `websocket.gateway.ts`.  Stateful classes
become explicit state records with pure transition functions; JavaScript
exceptions become `Except` results or totality of the transition function;
the binary frames produced by the `lib0` encoder are represented by an
injective inductive type because the byte-level encoder is an external
library.
-/

set_option autoImplicit false

namespace HedgeDoc

/-! ## Message types and frames

The `MessageType` enum file is not part of the analysed sources; the tag
values are modelled from the spec's wire-format table (SYNC = 0,
AWARENESS = 1, HEDGEDOC = 2). -/

/-- Modelled from the spec: the message-type tags of the wire protocol.
The enum source file (`message-type.enum.ts`) is missing from the analysed
sources; the spec fixes SYNC = 0, AWARENESS = 1, HEDGEDOC = 2. -/
inductive MessageType
  | SYNC
  | AWARENESS
  | HEDGEDOC
deriving DecidableEq, Repr

/-- Abstract representation of the encoded binary frames produced by
`encode-utils.ts`.  The byte-level `lib0` encoding is an external library;
what matters for the hub logic is which frame is produced and that the
encodings of distinct frames are distinct, so frames are modelled as an
injective inductive type.  `syncUpdate u` stands for
`encodeSyncMessage(u)`, i.e. the SYNC tag followed by a SYNC-UPDATE
sub-frame wrapping the raw update bytes `u`. -/
inductive Frame
  | syncUpdate (update : List Nat)
  | syncStep1
  | awarenessUpdate (clientIds : List Nat)
deriving DecidableEq, Repr

/-! ## Note id extraction (`extract-note-id-from-realtime-path.ts`)

```ts
const REALTIME_PATH_REGEX = /^\/realtime\/\?noteId=(.+)$/;
export function extractNoteIdFromRealtimePath(realtimePath) {
  if (!realtimePath) { throw new Error('Provided path is empty'); }
  const pathMatching = REALTIME_PATH_REGEX.exec(realtimePath);
  if (!pathMatching || pathMatching.length < 2) { throw ... invalid URL path ...; }
  return pathMatching[1];
}
```

The regex is anchored at both ends; `(.+)` is one or more characters none
of which is a JavaScript line terminator (`.` without the `s` flag).  So a
path matches exactly when it is the literal prefix `/realtime/?noteId=`
followed by a non-empty line-terminator-free capture, and the capture is
the returned group. -/

/-- JavaScript line terminators, which `.` in a regex never matches. -/
def jsLineTerminator (c : Char) : Bool :=
  c = '\n' || c = '\r' || c = '\u2028' || c = '\u2029'

/-- Strips a literal character sequence off the front of a character list,
returning the remainder on success. -/
def stripFixedPart : List Char → List Char → Option (List Char)
  | [], rest => some rest
  | _ :: _, [] => none
  | p :: ps, c :: cs => if c = p then stripFixedPart ps cs else none

/-- Model of `REALTIME_PATH_REGEX.exec`: returns the capture group of
`^\/realtime\/\?noteId=(.+)$` when the path matches, else `none`.  The
path matches exactly when it is the literal `/realtime/?noteId=` followed
by a non-empty remainder free of line terminators (`.+` is one or more
characters, anchored at the end), and the remainder is the capture. -/
def realtimePathRegexExec (path : String) : Option String :=
  match stripFixedPart "/realtime/?noteId=".data path.data with
  | none => none
  | some rest =>
    if rest ≠ [] && rest.all (fun c => !jsLineTerminator c) then
      some (String.mk rest)
    else
      none

/-- Embedding of `extractNoteIdFromRealtimePath`.  The `undefined` path is
`none`; a thrown `Error` is an `Except.error` carrying the message. -/
def extractNoteIdFromRealtimePath (realtimePath : Option String) :
    Except String String :=
  match realtimePath with
  | none => .error "Provided path is empty"
  | some path =>
    if path = "" then .error "Provided path is empty"
    else
      match realtimePathRegexExec path with
      | none =>
        .error ("Realtime connection denied (invalid URL path): " ++ path)
      | some captured => .ok captured

/-! ## Websocket transport and `WebsocketConnection.send`
(`websocket-connection.ts`)

```ts
public send(content: Uint8Array): void {
  if (this.websocket.readyState !== WebSocket.OPEN) { return; }
  try { this.websocket.send(content); }
  catch (error: unknown) { this.websocket.close(); }
}
```
-/

/-- The four ready states of a `ws` WebSocket. -/
inductive WsReadyState
  | CONNECTING
  | OPEN
  | CLOSING
  | CLOSED
deriving DecidableEq, Repr

/-- State of one raw websocket transport.  `sentFrames` logs the payloads
successfully handed to `websocket.send`; `closeCalled` records that
`websocket.close()` was invoked. -/
structure WsTransport where
  readyState : WsReadyState
  sentFrames : List Frame
  closeCalled : Bool
deriving DecidableEq, Repr

/-- `websocket.close()`: marks the socket closing. -/
def WsTransport.close (ws : WsTransport) : WsTransport :=
  { ws with readyState := .CLOSING, closeCalled := true }

/-- Embedding of `WebsocketConnection.send`.  `writeThrows` says whether
the underlying `websocket.send` call throws.  The function is total: the
TypeScript `catch` swallows the exception, so no exception ever escapes
to the caller. -/
def WebsocketConnection.send (writeThrows : Bool) (content : Frame)
    (ws : WsTransport) : WsTransport :=
  if ws.readyState ≠ .OPEN then ws
  else if writeThrows then ws.close
  else { ws with sentFrames := ws.sentFrames ++ [content] }

/-! ## Keep-alive monitor (`connection-keep-alive-ping.ts`)

```ts
constructor(private websocket: WebSocket) { this.startTimer(); }
public startTimer(): void {
  this.pongReceived = false;
  const intervalId = setInterval(() => this.check(), pingTimeout);
  this.websocket.on('close', () => { clearInterval(intervalId); });
  this.websocket.on('pong', () => { this.pongReceived = true; });
  this.websocket.on('ping', () => { this.websocket.pong(); });
}
private check(): void {
  if (this.pongReceived) {
    this.pongReceived = false;
    try { this.websocket.ping(); }
    catch (e) { this.websocket.close(); ... }
  } else { this.websocket.close(); ... }
}
```

The monitor is modelled as a state machine driven by the events the
environment can deliver: a timer tick (`tick ok`, where `ok` says whether
the `websocket.ping()` write would succeed), a pong frame from the peer, a
ping frame from the peer, and the websocket close event (which clears the
interval, so no further ticks occur).  A tick is only delivered while the
interval is active. -/

/-- The ping interval `pingTimeout` in milliseconds (30 * 1000). -/
def ConnectionKeepAlivePing.pingTimeout : Nat := 30 * 1000

/-- State of one `ConnectionKeepAlivePing` together with its websocket.
`pingsSent` counts successful `websocket.ping()` calls made by the
monitor, `pongsSent` counts `websocket.pong()` replies to peer pings. -/
structure KeepAliveState where
  pongReceived : Bool
  wsClosed : Bool
  timerActive : Bool
  pingsSent : Nat
  pongsSent : Nat
deriving DecidableEq, Repr

/-- The state right after the constructor ran `startTimer()`:
`pongReceived = false`, interval started, nothing sent yet. -/
def ConnectionKeepAlivePing.start : KeepAliveState :=
  { pongReceived := false, wsClosed := false, timerActive := true,
    pingsSent := 0, pongsSent := 0 }

/-- Events delivered to the monitor by the environment. -/
inductive KAEvent
  | tick (pingOk : Bool)
  | pongFromPeer
  | pingFromPeer
  | closeEvent
deriving DecidableEq, Repr

/-- Embedding of `check()`: called on each interval tick. -/
def ConnectionKeepAlivePing.check (pingOk : Bool) (s : KeepAliveState) :
    KeepAliveState :=
  if s.pongReceived then
    let s1 := { s with pongReceived := false }
    if pingOk then { s1 with pingsSent := s1.pingsSent + 1 }
    else { s1 with wsClosed := true }
  else
    { s with wsClosed := true }

/-- One step of the monitor: dispatches an event to the handlers
registered in `startTimer()`. -/
def ConnectionKeepAlivePing.step (s : KeepAliveState) (e : KAEvent) :
    KeepAliveState :=
  match e with
  | .tick pingOk =>
    if s.timerActive then ConnectionKeepAlivePing.check pingOk s else s
  | .pongFromPeer => { s with pongReceived := true }
  | .pingFromPeer => { s with pongsSent := s.pongsSent + 1 }
  | .closeEvent => { s with timerActive := false }

/-- Runs a sequence of events through the monitor. -/
def ConnectionKeepAlivePing.run (s : KeepAliveState) (es : List KAEvent) :
    KeepAliveState :=
  es.foldl ConnectionKeepAlivePing.step s

/-! ## Connection admission (`websocket.gateway.ts`, `handleConnection`)

```ts
const cookieHeader = req.headers.cookie;
if (!cookieHeader) { ... clientSocket.close(); return; }
const sessionCookie = parseCookie(cookieHeader);
const cookieContent = sessionCookie[HEDGEDOC_SESSION];
if (!cookieContent) { ... clientSocket.close(); return; }
try {
  const sessionId = cookieContent.slice(2).split('.')[0];
  const username = await this.sessionService.getUsernameFromSessionId(sessionId);
  const user = await this.userService.getUserByUsername(username);
  const note = await this.noteService.getNoteByIdOrAlias(
    extractNoteIdFromRealtimePath(req.url ?? ''));
  if (!(await this.permissionsService.mayRead(user, note))) { ... close; return; }
  const realtimeNote = await this.realtimeNoteService.getOrCreateRealtimeNote(...);
  if (clientSocket.readyState !== WebSocket.OPEN) { ... close; return; }
  const connection = new WebsocketConnection(clientSocket, user, realtimeNote);
  ...
  realtimeNote.connectClient(connection);
} catch (error) { ... clientSocket.close(); }
```

The external collaborators (session, user, note and permission services,
and the `cookie` parser) are opaque to this subsystem; they enter the
model as parameters.  `parsedCookies` stands for the result of
`parseCookie(cookieHeader)`; a service that throws is a `none` result. -/

/-- The fixed session cookie name.  The constant lives in
`utils/session.ts`, which is not among the analysed sources; only its
identity matters here. -/
def HEDGEDOC_SESSION : String := "HEDGEDOC_SESSION"

/-- First-match lookup in a parsed cookie list, modelling
`parseCookie(...)[name]`. -/
def lookupCookie : List (String × String) → String → Option String
  | [], _ => none
  | (k, v) :: rest, name =>
    if k = name then some v else lookupCookie rest name

/-- The external collaborators consulted during admission.  Users and
notes are identified by numbers; a lookup that throws or finds nothing is
`none`.  `socketOpenAfterCreate` is the ready-state test performed after
the hub has been obtained. -/
structure AdmissionEnv where
  getUsernameFromSessionId : String → Option String
  getUserByUsername : String → Option Nat
  getNoteByIdOrAlias : String → Option Nat
  mayRead : Nat → Nat → Bool
  socketOpenAfterCreate : Bool

/-- Observable outcome of one `handleConnection` call: whether the client
socket was closed, whether `realtimeNoteService.getOrCreateRealtimeNote`
was reached (the only way a hub can come into existence), and whether the
connection was registered with a hub. -/
structure AdmissionOutcome where
  socketClosed : Bool
  registryConsulted : Bool
  connected : Bool
deriving DecidableEq, Repr

/-- The `cookieContent.slice(2).split('.')[0]` session-id extraction. -/
def sessionIdOfCookie (cookieContent : String) : String :=
  ((cookieContent.drop 2).takeWhile (fun c => c ≠ '.'))

/-- Embedding of `WebsocketGateway.handleConnection`.  `cookieHeader` is
`req.headers.cookie` (`none` when the header is absent); `parsedCookies`
is the external parser's view of that header; `url` is `req.url`. -/
def WebsocketGateway.handleConnection (env : AdmissionEnv)
    (cookieHeader : Option String)
    (parsedCookies : List (String × String))
    (url : Option String) : AdmissionOutcome :=
  match cookieHeader with
  | none => ⟨true, false, false⟩
  | some header =>
    if header = "" then ⟨true, false, false⟩
    else
      match lookupCookie parsedCookies HEDGEDOC_SESSION with
      | none => ⟨true, false, false⟩
      | some cookieContent =>
        if cookieContent = "" then ⟨true, false, false⟩
        else
          match env.getUsernameFromSessionId
              (sessionIdOfCookie cookieContent) with
          | none => ⟨true, false, false⟩
          | some username =>
            match env.getUserByUsername username with
            | none => ⟨true, false, false⟩
            | some user =>
              match extractNoteIdFromRealtimePath (some (url.getD "")) with
              | .error _ => ⟨true, false, false⟩
              | .ok noteId =>
                match env.getNoteByIdOrAlias noteId with
                | none => ⟨true, false, false⟩
                | some note =>
                  if env.mayRead user note then
                    if env.socketOpenAfterCreate then ⟨false, true, true⟩
                    else ⟨true, true, false⟩
                  else ⟨true, false, false⟩

/-! ## The note hub (`realtime-note.ts` with `websocket-doc.ts`)

`RealtimeNote` holds a `Set<WebsocketConnection>` of clients, an
`isClosing` flag, a `WebsocketDoc` and a `WebsocketAwareness`, plus the
`onDestroy` callback installed by `realtime-note.service.ts`, which calls
`realtimeNote.destroy()` again and deletes the note id from the service
map.  Connections are identified by numbers.  The yjs pieces that the hub
relies on are modelled by flags: `docObserverActive` says the
`distributeYDocUpdate` handler registered in the `WebsocketDoc`
constructor is still attached (yjs `Doc.destroy()` removes all observers,
so no update event dispatches afterwards); `docDestroyed` and
`awarenessDestroyed` record the `destroy()` calls on them.  `connClosed`
records the connections whose `disconnect()` was invoked, `inRegistry`
whether the service map still holds this note id, and `sendCalls` logs
every `client.send(frame)` call the hub makes (delivery through the
transport is the `WebsocketConnection.send` model above).

`destroy` iterates the client set calling `disconnect()` on every
connection; `WebsocketConnection.disconnect` closes the websocket and
calls `removeClient`, which may in turn call `destroy` when the set
becomes empty — a mutual recursion that the `isClosing` flag cuts off at
depth three.  The embedding makes it structural with a fuel argument; the
public entry points pass enough fuel that the zero-fuel base case is
never reached (at fuel 0 the functions return the state unchanged, which
coincides with the guarded early return that would fire there). -/

/-- JavaScript `Set.add`: appends the element unless present. -/
def insertNoDup (x : Nat) (l : List Nat) : List Nat :=
  if x ∈ l then l else l ++ [x]

/-- State of one `RealtimeNote`, its yjs document/awareness and its
registry entry. -/
structure NoteWorld where
  clients : List Nat
  isClosing : Bool
  docObserverActive : Bool
  docDestroyed : Bool
  awarenessDestroyed : Bool
  connClosed : List Nat
  inRegistry : Bool
  sendCalls : List (Nat × Frame)
deriving DecidableEq, Repr

/-- A fresh hub as built by the `RealtimeNote` constructor: no clients,
not closing, update observer registered, present in the registry. -/
def RealtimeNote.fresh : NoteWorld :=
  { clients := [], isClosing := false, docObserverActive := true,
    docDestroyed := false, awarenessDestroyed := false, connClosed := [],
    inRegistry := true, sendCalls := [] }

/-- `client.send(frame)` as observed from the hub: the call is logged;
whether the transport delivers is `WebsocketConnection.send`'s concern. -/
def RealtimeNote.sendTo (c : Nat) (f : Frame) (w : NoteWorld) : NoteWorld :=
  { w with sendCalls := w.sendCalls ++ [(c, f)] }

mutual

/-- Embedding of `RealtimeNote.destroy` (fuelled):
```ts
public destroy(): void {
  if (this.isClosing) { return; }
  this.isClosing = true;
  this.websocketDoc.destroy();
  this.websocketAwareness.destroy();
  this.clients.forEach((value) => value.disconnect());
}
``` -/
def RealtimeNote.destroyF : Nat → NoteWorld → NoteWorld
  | 0, w => w
  | n + 1, w =>
    if w.isClosing then w
    else
      let w1 := { w with isClosing := true, docDestroyed := true,
                         docObserverActive := false,
                         awarenessDestroyed := true }
      w1.clients.foldl (fun acc c => RealtimeNote.disconnectF n c acc) w1

/-- Embedding of `WebsocketConnection.disconnect` (fuelled):
```ts
public disconnect(): void {
  this.websocket.close();
  this.realtimeNote.removeClient(this);
}
``` -/
def RealtimeNote.disconnectF : Nat → Nat → NoteWorld → NoteWorld
  | 0, _, w => w
  | n + 1, c, w =>
    RealtimeNote.removeClientF n c
      { w with connClosed := insertNoDup c w.connClosed }

/-- Embedding of `RealtimeNote.removeClient` (fuelled), including the
`onDestroy` callback installed by the service:
```ts
public removeClient(client: WebsocketConnection): void {
  this.clients.delete(client);
  if (!this.hasConnections() && !this.isClosing) {
    this.destroy();
    this.onDestroy?.();   // realtimeNote.destroy(); map.delete(noteId);
  }
}
``` -/
def RealtimeNote.removeClientF : Nat → Nat → NoteWorld → NoteWorld
  | 0, _, w => w
  | n + 1, c, w =>
    let w1 := { w with clients := w.clients.erase c }
    if w1.clients.isEmpty && !w1.isClosing then
      let w2 := RealtimeNote.destroyF n w1
      let w3 := RealtimeNote.destroyF n w2
      { w3 with inRegistry := false }
    else w1

end

/-- `RealtimeNote.destroy`.  The call chain
destroy → disconnect → removeClient → destroy is the deepest possible
(the second destroy sees the closing flag), so fuel 3 is exact. -/
def RealtimeNote.destroy (w : NoteWorld) : NoteWorld :=
  RealtimeNote.destroyF 3 w

/-- `RealtimeNote.removeClient`.  The call chain
removeClient → destroy → disconnect → removeClient is the deepest
possible (the inner removeClient sees the closing flag), so fuel 4 is
exact. -/
def RealtimeNote.removeClient (c : Nat) (w : NoteWorld) : NoteWorld :=
  RealtimeNote.removeClientF 4 c w

/-- Embedding of `RealtimeNote.connectClient`:
```ts
public connectClient(client: WebsocketConnection): void {
  this.logger.log(`New client connected`);
  this.clients.add(client);
}
``` -/
def RealtimeNote.connectClient (c : Nat) (w : NoteWorld) : NoteWorld :=
  { w with clients := insertNoDup c w.clients }

/-- Embedding of `WebsocketDoc.distributeYDocUpdate`:
```ts
private distributeYDocUpdate(update: Uint8Array, origin: WebsocketConnection): void {
  const binaryUpdate = encodeSyncMessage(update);
  this.realtimeNote.getConnections().forEach((client) => {
    if (origin !== client) { client.send(binaryUpdate); }
  });
}
``` -/
def WebsocketDoc.distributeYDocUpdate (w : NoteWorld) (update : List Nat)
    (origin : Nat) : NoteWorld :=
  let binaryUpdate := Frame.syncUpdate update
  w.clients.foldl
    (fun acc client =>
      if origin ≠ client then RealtimeNote.sendTo client binaryUpdate acc
      else acc)
    w

/-- The yjs `update` event dispatch: the `WebsocketDoc` constructor
registers `distributeYDocUpdate` as the doc's update observer, and yjs
`Doc.destroy()` removes all observers, so the handler only runs while the
observer is attached. -/
def WebsocketDoc.emitUpdate (w : NoteWorld) (update : List Nat)
    (origin : Nat) : NoteWorld :=
  if w.docObserverActive then
    WebsocketDoc.distributeYDocUpdate w update origin
  else w

/-- Modelled from the spec: the broadcast target set that §4.5 prescribes
for a CRDT local-update event — every connection in the set other than
the origin whose `isSynced()` is true.  The source code tracks no synced
flag on `WebsocketConnection`, so the sync status of each connection is
an arbitrary assignment `synced`. -/
def specBroadcastTargets (clients : List Nat) (synced : Nat → Bool)
    (origin : Nat) : List Nat :=
  clients.filter (fun c => c ≠ origin && synced c)

/-! ## The hub registry (`realtime-note.service.ts`)

```ts
public async getOrCreateRealtimeNote(noteId, initialContentReceiver) {
  const realtimeNote = this.noteIdToRealtimeNote.get(noteId);
  if (!realtimeNote) {
    const initialContent = await initialContentReceiver();
    const realtimeNote = new RealtimeNote(noteId, initialContent, () => {...});
    this.noteIdToRealtimeNote.set(noteId, realtimeNote);
    return realtimeNote;
  } else { return realtimeNote; }
}
```

The `await` of `initialContentReceiver()` is a suspension point of the
Node event loop: the synchronous prefix (map lookup, miss branch, loader
invocation) runs atomically, then the call suspends until the loader's
promise resolves, during which other calls may run.  A call is therefore
a two-step coroutine, and concurrent calls are an interleaving of their
steps chosen by a schedule. -/

/-- Registry state: the `noteIdToRealtimeNote` map (note id → hub,
hubs numbered in creation order), the next fresh hub number, and counters
of loader invocations and `Map.set` insertions. -/
structure ServiceState where
  noteMap : List (String × Nat)
  nextHubId : Nat
  loaderCalls : Nat
  inserts : Nat
deriving DecidableEq, Repr

/-- The empty registry. -/
def RealtimeNoteService.empty : ServiceState :=
  { noteMap := [], nextHubId := 0, loaderCalls := 0, inserts := 0 }

/-- `Map.get`. -/
def mapGet : List (String × Nat) → String → Option Nat
  | [], _ => none
  | (k, v) :: rest, key => if k = key then some v else mapGet rest key

/-- `Map.set`: replaces the binding if the key is present, else appends. -/
def mapSet : List (String × Nat) → String → Nat → List (String × Nat)
  | [], key, v => [(key, v)]
  | (k, v') :: rest, key, v =>
    if k = key then (key, v) :: rest else (k, v') :: mapSet rest key v

/-- Progress of one `getOrCreateRealtimeNote(noteId, loader)` call. -/
inductive CallPhase
  | started
  | awaitingLoader
  | done (hub : Nat)
deriving DecidableEq, Repr

/-- One step of a `getOrCreateRealtimeNote` call.  From `started` the
call runs its synchronous prefix: the map lookup and, on a miss, the
loader invocation (counted), then suspends on the `await`.  From
`awaitingLoader` the loader has resolved: the call constructs the hub,
inserts it into the map and returns it. -/
def RealtimeNoteService.stepCall (noteId : String) :
    ServiceState × CallPhase → ServiceState × CallPhase
  | (s, .started) =>
    match mapGet s.noteMap noteId with
    | some h => (s, .done h)
    | none => ({ s with loaderCalls := s.loaderCalls + 1 }, .awaitingLoader)
  | (s, .awaitingLoader) =>
    let h := s.nextHubId
    ({ s with noteMap := mapSet s.noteMap noteId h, nextHubId := h + 1,
              inserts := s.inserts + 1 },
      .done h)
  | (s, .done h) => (s, .done h)

/-- Two concurrent `getOrCreateRealtimeNote` calls for the same note id. -/
structure TwoCalls where
  svc : ServiceState
  callA : CallPhase
  callB : CallPhase
deriving DecidableEq, Repr

/-- Which of the two concurrent callers the event loop runs next. -/
inductive Caller
  | callerA
  | callerB
deriving DecidableEq, Repr

/-- Runs two concurrent calls under a schedule: each schedule entry runs
one step of the named call. -/
def RealtimeNoteService.runTwo (noteId : String) :
    TwoCalls → List Caller → TwoCalls
  | t, [] => t
  | t, .callerA :: rest =>
    let (s, p) := RealtimeNoteService.stepCall noteId (t.svc, t.callA)
    RealtimeNoteService.runTwo noteId ⟨s, p, t.callB⟩ rest
  | t, .callerB :: rest =>
    let (s, p) := RealtimeNoteService.stepCall noteId (t.svc, t.callB)
    RealtimeNoteService.runTwo noteId ⟨s, t.callA, p⟩ rest

end HedgeDoc

namespace HedgeDoc

/-- Claim C8: extracting a note id from `"/realtime/?noteId=abc"` returns
`"abc"`; for `"/realtime/"`, `"/other?noteId=abc"`, an absent or empty
path, and generally any path not matched by
`^\/realtime\/\?noteId=(.+)$`, the extraction fails with an error. -/
theorem extractNoteIdFromRealtimePath_spec :
    extractNoteIdFromRealtimePath (some "/realtime/?noteId=abc") = .ok "abc"
    ∧ (extractNoteIdFromRealtimePath (some "/realtime/")).isOk = false
    ∧ (extractNoteIdFromRealtimePath (some "/other?noteId=abc")).isOk = false
    ∧ (extractNoteIdFromRealtimePath none).isOk = false
    ∧ (extractNoteIdFromRealtimePath (some "")).isOk = false
    ∧ ∀ path : String, realtimePathRegexExec path = none →
        (extractNoteIdFromRealtimePath (some path)).isOk = false := by
  refine ⟨rfl, by decide, by decide, rfl, rfl, ?_⟩
  intro path h
  by_cases hp : path = ""
  · subst hp; decide
  · simp [extractNoteIdFromRealtimePath, hp, h, Except.isOk, Except.toBool]

/-- Witness for C8: the universally quantified clause applied to the
concrete non-matching path `"/realtime/"`. -/
theorem extractNoteIdFromRealtimePath_spec_witness :
    (extractNoteIdFromRealtimePath (some "/realtime/")).isOk = false :=
  extractNoteIdFromRealtimePath_spec.2.2.2.2.2 "/realtime/" (by decide)

/-- Claim C9: `send` is a no-op whenever the transport is not `OPEN`, and
when the underlying write throws, `send` closes the transport and (being a
total function) propagates no exception to its caller. -/
theorem websocketConnection_send_spec :
    (∀ (b : Bool) (content : Frame) (ws : WsTransport),
      ws.readyState ≠ .OPEN → WebsocketConnection.send b content ws = ws)
    ∧ (∀ (content : Frame) (ws : WsTransport), ws.readyState = .OPEN →
        WebsocketConnection.send true content ws = ws.close ∧
        (WebsocketConnection.send true content ws).closeCalled = true ∧
        (WebsocketConnection.send true content ws).sentFrames
          = ws.sentFrames) := by
  constructor
  · intro b content ws h
    simp [WebsocketConnection.send, h]
  · intro content ws h
    simp [WebsocketConnection.send, h, WsTransport.close]

/-! ### Keep-alive lemmas -/

/-- After any run of `check`, the pong flag is cleared. -/
theorem ka_check_pongReceived (b : Bool) (s : KeepAliveState) :
    (ConnectionKeepAlivePing.check b s).pongReceived = false := by
  cases b <;> by_cases h : s.pongReceived
    <;> simp [ConnectionKeepAlivePing.check, h]

/-- A step on an event other than a peer pong keeps the pong flag cleared
and sends no ping. -/
theorem ka_step_no_pong (s : KeepAliveState) (e : KAEvent)
    (he : e ≠ KAEvent.pongFromPeer) (h : s.pongReceived = false) :
    (ConnectionKeepAlivePing.step s e).pongReceived = false ∧
      (ConnectionKeepAlivePing.step s e).pingsSent = s.pingsSent := by
  cases e with
  | tick b =>
    by_cases ht : s.timerActive
      <;> simp [ConnectionKeepAlivePing.step, ConnectionKeepAlivePing.check,
            ht, h]
  | pongFromPeer => exact absurd rfl he
  | pingFromPeer => simp [ConnectionKeepAlivePing.step, h]
  | closeEvent => simp [ConnectionKeepAlivePing.step, h]

/-- A run without peer pongs keeps the pong flag cleared and sends no
ping. -/
theorem ka_run_no_pong (es : List KAEvent) (s : KeepAliveState)
    (hes : ∀ e ∈ es, e ≠ KAEvent.pongFromPeer)
    (h : s.pongReceived = false) :
    (ConnectionKeepAlivePing.run s es).pongReceived = false ∧
      (ConnectionKeepAlivePing.run s es).pingsSent = s.pingsSent := by
  induction es generalizing s with
  | nil => exact ⟨h, rfl⟩
  | cons e es ih =>
    have he : e ≠ KAEvent.pongFromPeer := hes e (by simp)
    have hstep := ka_step_no_pong s e he h
    have hrec := ih (ConnectionKeepAlivePing.step s e)
      (fun x hx => hes x (by simp [hx])) hstep.1
    exact ⟨hrec.1, hrec.2.trans hstep.2⟩

/-- Only the close event clears the interval. -/
theorem ka_step_timer (s : KeepAliveState) (e : KAEvent)
    (he : e ≠ KAEvent.closeEvent) :
    (ConnectionKeepAlivePing.step s e).timerActive = s.timerActive := by
  cases e with
  | tick b =>
    by_cases ht : s.timerActive
      <;> by_cases hp : s.pongReceived <;> cases b
      <;> simp [ConnectionKeepAlivePing.step, ConnectionKeepAlivePing.check,
            ht, hp]
  | pongFromPeer => rfl
  | pingFromPeer => rfl
  | closeEvent => exact absurd rfl he

/-- A run without a close event keeps the interval active. -/
theorem ka_run_timer (es : List KAEvent) (s : KeepAliveState)
    (hes : ∀ e ∈ es, e ≠ KAEvent.closeEvent) :
    (ConnectionKeepAlivePing.run s es).timerActive = s.timerActive := by
  induction es generalizing s with
  | nil => rfl
  | cons e es ih =>
    have := ih (ConnectionKeepAlivePing.step s e)
      (fun x hx => hes x (by simp [hx]))
    exact this.trans (ka_step_timer s e (hes e (by simp)))

/-- Steps on non-tick events never send a ping. -/
theorem ka_run_no_tick (es : List KAEvent) (s : KeepAliveState)
    (hes : ∀ e ∈ es, ∀ b, e ≠ KAEvent.tick b) :
    (ConnectionKeepAlivePing.run s es).pingsSent = s.pingsSent := by
  induction es generalizing s with
  | nil => rfl
  | cons e es ih =>
    have hstep : (ConnectionKeepAlivePing.step s e).pingsSent = s.pingsSent := by
      cases e with
      | tick b => exact absurd rfl (hes (KAEvent.tick b) (by simp) b)
      | pongFromPeer => rfl
      | pingFromPeer => rfl
      | closeEvent => rfl
    have := ih (ConnectionKeepAlivePing.step s e)
      (fun x hx => hes x (by simp [hx]))
    exact this.trans hstep

/-- Claim C6: if between one timer tick and the next the peer sends no
pong, the monitor closes the transport at that next tick — one missed
interval of period `pingTimeout` (30 s) suffices, not two. -/
theorem connectionKeepAlivePing_one_missed_interval
    (s : KeepAliveState) (b b' : Bool) (mid : List KAEvent)
    (hmid : ∀ e ∈ mid, e ≠ KAEvent.pongFromPeer)
    (ht : s.timerActive = true)
    (ht2 : (ConnectionKeepAlivePing.run
        (ConnectionKeepAlivePing.step s (KAEvent.tick b)) mid).timerActive
        = true) :
    (ConnectionKeepAlivePing.step
        (ConnectionKeepAlivePing.run
          (ConnectionKeepAlivePing.step s (KAEvent.tick b)) mid)
        (KAEvent.tick b')).wsClosed = true
    ∧ ConnectionKeepAlivePing.pingTimeout = 30 * 1000 := by
  refine ⟨?_, rfl⟩
  have h1 : (ConnectionKeepAlivePing.step s (KAEvent.tick b)).pongReceived
      = false := by
    simp [ConnectionKeepAlivePing.step, ht, ka_check_pongReceived]
  have h2 := (ka_run_no_pong mid _ hmid h1).1
  revert ht2 h2
  generalize ConnectionKeepAlivePing.run
    (ConnectionKeepAlivePing.step s (KAEvent.tick b)) mid = s2
  intro ht2 h2
  simp [ConnectionKeepAlivePing.step, ht2, ConnectionKeepAlivePing.check, h2]

/-- Witness for C6: a healthy monitor that saw a pong before the first
tick, then silence for one interval, is closed at the second tick. -/
theorem connectionKeepAlivePing_one_missed_interval_witness :
    (ConnectionKeepAlivePing.step
        (ConnectionKeepAlivePing.run
          (ConnectionKeepAlivePing.step
            ⟨true, false, true, 0, 0⟩ (KAEvent.tick true)) [])
        (KAEvent.tick true)).wsClosed = true
    ∧ ConnectionKeepAlivePing.pingTimeout = 30 * 1000 :=
  connectionKeepAlivePing_one_missed_interval
    ⟨true, false, true, 0, 0⟩ true true [] (by intro e he; cases he) rfl
    (by decide)

/-- Claim C10: a fresh monitor starts with `pongReceived = false`, sends
no ping before the first tick, in fact sends no ping until a peer pong has
arrived (it never initiates the ping/pong exchange), and therefore a peer
that sends no pong of its own accord during the first interval is closed
at the very first tick. -/
theorem connectionKeepAlivePing_start_spec :
    ConnectionKeepAlivePing.start.pongReceived = false
    ∧ (∀ pre : List KAEvent, (∀ e ∈ pre, ∀ b, e ≠ KAEvent.tick b) →
        (ConnectionKeepAlivePing.run ConnectionKeepAlivePing.start
          pre).pingsSent = 0)
    ∧ (∀ t : List KAEvent, (∀ e ∈ t, e ≠ KAEvent.pongFromPeer) →
        (ConnectionKeepAlivePing.run ConnectionKeepAlivePing.start
          t).pingsSent = 0)
    ∧ (∀ (pre : List KAEvent) (b : Bool),
        (∀ e ∈ pre, e ≠ KAEvent.pongFromPeer ∧ e ≠ KAEvent.closeEvent) →
        (ConnectionKeepAlivePing.step
          (ConnectionKeepAlivePing.run ConnectionKeepAlivePing.start pre)
          (KAEvent.tick b)).wsClosed = true) := by
  refine ⟨rfl, ?_, ?_, ?_⟩
  · intro pre hpre
    exact ka_run_no_tick pre ConnectionKeepAlivePing.start hpre
  · intro t ht
    exact (ka_run_no_pong t ConnectionKeepAlivePing.start ht rfl).2
  · intro pre b hpre
    have hp := (ka_run_no_pong pre ConnectionKeepAlivePing.start
      (fun e he => (hpre e he).1) rfl).1
    have ht : (ConnectionKeepAlivePing.run ConnectionKeepAlivePing.start
        pre).timerActive = true :=
      (ka_run_timer pre ConnectionKeepAlivePing.start
        (fun e he => (hpre e he).2)).trans rfl
    revert hp ht
    generalize ConnectionKeepAlivePing.run ConnectionKeepAlivePing.start
      pre = s2
    intro hp ht
    simp [ConnectionKeepAlivePing.step, ht, ConnectionKeepAlivePing.check, hp]

/-- Witness for C10: the quantified clauses at the one-event history
`[pingFromPeer]` and the tick that follows it. -/
theorem connectionKeepAlivePing_start_spec_witness :
    (ConnectionKeepAlivePing.run ConnectionKeepAlivePing.start
      [KAEvent.pingFromPeer]).pingsSent = 0
    ∧ (ConnectionKeepAlivePing.step
        (ConnectionKeepAlivePing.run ConnectionKeepAlivePing.start
          [KAEvent.pingFromPeer])
        (KAEvent.tick true)).wsClosed = true :=
  ⟨connectionKeepAlivePing_start_spec.2.1 [KAEvent.pingFromPeer]
      (by intro e he b; simp at he; subst he; simp),
   connectionKeepAlivePing_start_spec.2.2.2 [KAEvent.pingFromPeer] true
      (by intro e he; simp at he; subst he; simp)⟩

/-- Witness for C9: both clauses at a concrete transport. -/
theorem websocketConnection_send_spec_witness :
    WebsocketConnection.send true Frame.syncStep1
        ⟨WsReadyState.CLOSED, [], false⟩ = ⟨WsReadyState.CLOSED, [], false⟩
    ∧ WebsocketConnection.send true Frame.syncStep1
        ⟨WsReadyState.OPEN, [], false⟩
      = WsTransport.close ⟨WsReadyState.OPEN, [], false⟩ :=
  ⟨websocketConnection_send_spec.1 true Frame.syncStep1
      ⟨WsReadyState.CLOSED, [], false⟩ (by decide),
   (websocketConnection_send_spec.2 Frame.syncStep1
      ⟨WsReadyState.OPEN, [], false⟩ rfl).1⟩

end HedgeDoc

namespace HedgeDoc

/-- Claim C7: when the upgraded request has a missing cookie header, no
cookie under the fixed session-cookie name, or an empty session-cookie
value, admission closes the transport and returns before the registry is
consulted, so no hub is created. -/
theorem websocketGateway_cookie_denial
    (env : AdmissionEnv) (parsedCookies : List (String × String))
    (url cookieHeader : Option String)
    (h : cookieHeader = none
      ∨ lookupCookie parsedCookies HEDGEDOC_SESSION = none
      ∨ lookupCookie parsedCookies HEDGEDOC_SESSION = some "") :
    WebsocketGateway.handleConnection env cookieHeader parsedCookies url
      = ⟨true, false, false⟩ := by
  rcases h with h | h | h
  · subst h; rfl
  · cases cookieHeader with
    | none => rfl
    | some header =>
      by_cases hh : header = ""
        <;> simp [WebsocketGateway.handleConnection, hh, h]
  · cases cookieHeader with
    | none => rfl
    | some header =>
      by_cases hh : header = ""
        <;> simp [WebsocketGateway.handleConnection, hh, h]

/-- Witness for C7: a request with a cookie header that holds no entry
for the session cookie name is denied without consulting the registry. -/
theorem websocketGateway_cookie_denial_witness :
    WebsocketGateway.handleConnection
      ⟨fun _ => some "alice", fun _ => some 1, fun _ => some 1,
        fun _ _ => true, true⟩
      (some "other=1") [("other", "1")] (some "/realtime/?noteId=abc")
      = ⟨true, false, false⟩ :=
  websocketGateway_cookie_denial
    ⟨fun _ => some "alice", fun _ => some 1, fun _ => some 1,
      fun _ _ => true, true⟩
    [("other", "1")] (some "/realtime/?noteId=abc") (some "other=1")
    (Or.inr (Or.inl (by decide)))

end HedgeDoc

namespace HedgeDoc

/-! ### Hub lemmas -/

/-- Unfolding at the fuel the public `destroy` passes. -/
theorem destroyF_three (w : NoteWorld) :
    RealtimeNote.destroyF 3 w =
      (if w.isClosing then w
       else
         let w1 := { w with isClosing := true, docDestroyed := true,
                            docObserverActive := false,
                            awarenessDestroyed := true }
         w1.clients.foldl
           (fun acc c => RealtimeNote.disconnectF 2 c acc) w1) := rfl

/-- Unfolding at the fuel reached inside `destroy`. -/
theorem disconnectF_two (c : Nat) (w : NoteWorld) :
    RealtimeNote.disconnectF 2 c w =
      RealtimeNote.removeClientF 1 c
        { w with connClosed := insertNoDup c w.connClosed } := rfl

/-- Unfolding at the fuel reached inside `disconnect`. -/
theorem removeClientF_one (c : Nat) (w : NoteWorld) :
    RealtimeNote.removeClientF 1 c w =
      (let w1 := { w with clients := w.clients.erase c }
       if w1.clients.isEmpty && !w1.isClosing then
         let w2 := RealtimeNote.destroyF 0 w1
         let w3 := RealtimeNote.destroyF 0 w2
         { w3 with inRegistry := false }
       else w1) := rfl

/-- Unfolding at the fuel the public `removeClient` passes. -/
theorem removeClientF_four (c : Nat) (w : NoteWorld) :
    RealtimeNote.removeClientF 4 c w =
      (let w1 := { w with clients := w.clients.erase c }
       if w1.clients.isEmpty && !w1.isClosing then
         let w2 := RealtimeNote.destroyF 3 w1
         let w3 := RealtimeNote.destroyF 3 w2
         { w3 with inRegistry := false }
       else w1) := rfl

/-- An element is a member after `Set.add`. -/
theorem mem_insertNoDup_self (x : Nat) (l : List Nat) :
    x ∈ insertNoDup x l := by
  by_cases h : x ∈ l <;> simp [insertNoDup, h]

/-- `Set.add` keeps existing members. -/
theorem mem_insertNoDup_of_mem (x y : Nat) (l : List Nat) (h : y ∈ l) :
    y ∈ insertNoDup x l := by
  by_cases hx : x ∈ l <;> simp [insertNoDup, hx, h]

/-- A `disconnect` performed while the hub is closing closes the
connection and removes it from the set, and nothing more (the re-entrant
destroy is cut off by the closing flag). -/
theorem disconnectF_closing (c : Nat) (w : NoteWorld)
    (h : w.isClosing = true) :
    RealtimeNote.disconnectF 2 c w =
      { w with connClosed := insertNoDup c w.connClosed,
               clients := w.clients.erase c } := by
  rw [disconnectF_two, removeClientF_one]
  simp [h]

/-- Effect of the `clients.forEach((value) => value.disconnect())` sweep
inside `destroy`: the closing flag stays set, the yjs flags, broadcast
log and registry entry are untouched, and every swept connection together
with every previously closed one ends up closed. -/
theorem destroy_sweep_props (l : List Nat) :
    ∀ (w : NoteWorld), w.isClosing = true →
      (l.foldl (fun acc c => RealtimeNote.disconnectF 2 c acc)
          w).isClosing = true
      ∧ (l.foldl (fun acc c => RealtimeNote.disconnectF 2 c acc)
          w).docObserverActive = w.docObserverActive
      ∧ (l.foldl (fun acc c => RealtimeNote.disconnectF 2 c acc)
          w).docDestroyed = w.docDestroyed
      ∧ (l.foldl (fun acc c => RealtimeNote.disconnectF 2 c acc)
          w).awarenessDestroyed = w.awarenessDestroyed
      ∧ (l.foldl (fun acc c => RealtimeNote.disconnectF 2 c acc)
          w).sendCalls = w.sendCalls
      ∧ (l.foldl (fun acc c => RealtimeNote.disconnectF 2 c acc)
          w).inRegistry = w.inRegistry
      ∧ ∀ x : Nat, (x ∈ l ∨ x ∈ w.connClosed) →
          x ∈ (l.foldl (fun acc c => RealtimeNote.disconnectF 2 c acc)
            w).connClosed := by
  induction l with
  | nil =>
    intro w h
    refine ⟨h, rfl, rfl, rfl, rfl, rfl, ?_⟩
    intro x hx
    rcases hx with hx | hx
    · cases hx
    · exact hx
  | cons a l ih =>
    intro w h
    rw [List.foldl_cons, disconnectF_closing a w h]
    have ih2 := ih { w with connClosed := insertNoDup a w.connClosed,
                            clients := w.clients.erase a } h
    refine ⟨ih2.1, ih2.2.1, ih2.2.2.1, ih2.2.2.2.1, ih2.2.2.2.2.1,
      ih2.2.2.2.2.2.1, ?_⟩
    intro x hx
    apply ih2.2.2.2.2.2.2 x
    rcases hx with hx | hx
    · rcases List.mem_cons.mp hx with hx | hx
      · exact Or.inr (hx ▸ mem_insertNoDup_self a w.connClosed)
      · exact Or.inl hx
    · exact Or.inr (mem_insertNoDup_of_mem a x w.connClosed hx)

/-- `destroy` on an already-closing hub returns immediately. -/
theorem destroy_of_closing (w : NoteWorld) (h : w.isClosing = true) :
    RealtimeNote.destroy w = w := by
  rw [RealtimeNote.destroy, destroyF_three]
  simp [h]

/-- Effect of `destroy` on a hub that is not yet closing. -/
theorem destroy_props (w : NoteWorld) (h : w.isClosing = false) :
    (RealtimeNote.destroy w).isClosing = true
    ∧ (RealtimeNote.destroy w).docObserverActive = false
    ∧ (RealtimeNote.destroy w).docDestroyed = true
    ∧ (RealtimeNote.destroy w).awarenessDestroyed = true
    ∧ (RealtimeNote.destroy w).sendCalls = w.sendCalls
    ∧ (RealtimeNote.destroy w).inRegistry = w.inRegistry
    ∧ ∀ c ∈ w.clients, c ∈ (RealtimeNote.destroy w).connClosed := by
  have hsweep := destroy_sweep_props w.clients
    { w with isClosing := true, docDestroyed := true,
             docObserverActive := false, awarenessDestroyed := true } rfl
  have hrw : RealtimeNote.destroy w =
      w.clients.foldl (fun acc c => RealtimeNote.disconnectF 2 c acc)
        { w with isClosing := true, docDestroyed := true,
                 docObserverActive := false,
                 awarenessDestroyed := true } := by
    rw [RealtimeNote.destroy, destroyF_three]
    simp [h]
  rw [hrw]
  refine ⟨hsweep.1, hsweep.2.1, hsweep.2.2.1, hsweep.2.2.2.1,
    hsweep.2.2.2.2.1, hsweep.2.2.2.2.2.1, ?_⟩
  intro c hc
  exact hsweep.2.2.2.2.2.2 c (Or.inl hc)

end HedgeDoc

namespace HedgeDoc

/-- Claim C5: `destroy()` is idempotent — a second (or any later) call
yields the same final state as one call — and one call on a hub that is
not yet closing sets the closing flag, tears down the CRDT document and
the awareness, and closes every connection in the set. -/
theorem realtimeNote_destroy_spec :
    (∀ w : NoteWorld,
      RealtimeNote.destroy (RealtimeNote.destroy w) = RealtimeNote.destroy w)
    ∧ ∀ w : NoteWorld, w.isClosing = false →
        (RealtimeNote.destroy w).isClosing = true
        ∧ (RealtimeNote.destroy w).docDestroyed = true
        ∧ (RealtimeNote.destroy w).awarenessDestroyed = true
        ∧ ∀ c ∈ w.clients, c ∈ (RealtimeNote.destroy w).connClosed := by
  constructor
  · intro w
    by_cases h : w.isClosing = true
    · rw [destroy_of_closing w h, destroy_of_closing w h]
    · have h' : w.isClosing = false := by
        revert h; cases w.isClosing <;> simp
      exact destroy_of_closing _ (destroy_props w h').1
  · intro w h
    have hp := destroy_props w h
    exact ⟨hp.1, hp.2.2.1, hp.2.2.2.1, hp.2.2.2.2.2.2⟩

/-- Witness for C5: a hub with one connected client. -/
theorem realtimeNote_destroy_spec_witness :
    RealtimeNote.destroy
        (RealtimeNote.destroy ⟨[4], false, true, false, false, [], true, []⟩)
      = RealtimeNote.destroy ⟨[4], false, true, false, false, [], true, []⟩
    ∧ (RealtimeNote.destroy
        ⟨[4], false, true, false, false, [], true, []⟩).isClosing = true
    ∧ 4 ∈ (RealtimeNote.destroy
        ⟨[4], false, true, false, false, [], true, []⟩).connClosed :=
  ⟨realtimeNote_destroy_spec.1 ⟨[4], false, true, false, false, [], true, []⟩,
   (realtimeNote_destroy_spec.2 ⟨[4], false, true, false, false, [], true, []⟩
      rfl).1,
   (realtimeNote_destroy_spec.2 ⟨[4], false, true, false, false, [], true, []⟩
      rfl).2.2.2 4 (by decide)⟩

/-- Counterexample to claim C3 as stated: after `destroy` has run on a
hub (closing flag set), `connectClient` still adds the new connection, so
the connection set grows. -/
theorem realtimeNote_connect_after_destroy_grows :
    (RealtimeNote.destroy
      ⟨[5], false, true, false, false, [], true, []⟩).isClosing = true
    ∧ (RealtimeNote.connectClient 7
        (RealtimeNote.destroy
          ⟨[5], false, true, false, false, [], true, []⟩)).clients
      ≠ (RealtimeNote.destroy
          ⟨[5], false, true, false, false, [], true, []⟩).clients := by
  decide

/-- Claim C3 (amended): `connectClient` performs no closing-flag check —
a hub whose closing-flag is set still adds the connection to its set
(`Set.add` semantics) — but after `destroy` has run no broadcast
originates from the hub, because the doc update observer was removed. -/
theorem realtimeNote_closing_connect_broadcast :
    (∀ (w : NoteWorld) (c : Nat), w.isClosing = true →
      (RealtimeNote.connectClient c w).clients = insertNoDup c w.clients)
    ∧ (∀ w : NoteWorld, w.isClosing = false → ∀ (u : List Nat) (o : Nat),
        (WebsocketDoc.emitUpdate (RealtimeNote.destroy w) u o).sendCalls
          = (RealtimeNote.destroy w).sendCalls) := by
  constructor
  · intro w c _
    rfl
  · intro w h u o
    have hobs : (RealtimeNote.destroy w).docObserverActive = false :=
      (destroy_props w h).2.1
    rw [WebsocketDoc.emitUpdate]
    simp [hobs]

/-- Witness for C3 (amended): a destroyed hub accepts connection 9 into
its set and dispatches no broadcast for a subsequent doc update. -/
theorem realtimeNote_closing_connect_broadcast_witness :
    (RealtimeNote.connectClient 9
        (RealtimeNote.destroy
          ⟨[6], false, true, false, false, [], true, []⟩)).clients
      = insertNoDup 9
          (RealtimeNote.destroy
            ⟨[6], false, true, false, false, [], true, []⟩).clients
    ∧ (WebsocketDoc.emitUpdate
        (RealtimeNote.destroy ⟨[6], false, true, false, false, [], true, []⟩)
        [1] 6).sendCalls
      = (RealtimeNote.destroy
          ⟨[6], false, true, false, false, [], true, []⟩).sendCalls :=
  ⟨realtimeNote_closing_connect_broadcast.1
      (RealtimeNote.destroy ⟨[6], false, true, false, false, [], true, []⟩) 9
      (by decide),
   realtimeNote_closing_connect_broadcast.2
      ⟨[6], false, true, false, false, [], true, []⟩ rfl [1] 6⟩

/-- Claim C4: when `removeClient` leaves the connection set empty and the
hub is not closing, it runs `destroy` and then the on-destroy callback:
the closing flag is set, doc and awareness are torn down, and the
registry entry for the note id is deleted.  When the set stays non-empty
or the hub is already closing, the call only removes the connection and
changes nothing else. -/
theorem realtimeNote_removeClient_spec (w : NoteWorld) (c : Nat) :
    (w.clients.erase c = [] → w.isClosing = false →
      (RealtimeNote.removeClient c w).isClosing = true
      ∧ (RealtimeNote.removeClient c w).docDestroyed = true
      ∧ (RealtimeNote.removeClient c w).awarenessDestroyed = true
      ∧ (RealtimeNote.removeClient c w).inRegistry = false)
    ∧ ((w.clients.erase c ≠ [] ∨ w.isClosing = true) →
      RealtimeNote.removeClient c w
        = { w with clients := w.clients.erase c }) := by
  constructor
  · intro hnil hclos
    rw [RealtimeNote.removeClient, removeClientF_four]
    simp only [hnil, hclos, destroyF_three]
    simp
  · intro hcase
    rw [RealtimeNote.removeClient, removeClientF_four]
    rcases hcase with hne | hclos
    · have : (w.clients.erase c).isEmpty = false := by
        revert hne; cases w.clients.erase c <;> simp
      simp [this]
    · simp [hclos]

/-- Witness for C4: both branches at concrete hubs — the last client of a
non-closing hub leaves (destroy plus deregistration fire), and a client
leaves a two-client hub (nothing but the set changes). -/
theorem realtimeNote_removeClient_spec_witness :
    ((RealtimeNote.removeClient 4
        ⟨[4], false, true, false, false, [], true, []⟩).isClosing = true
      ∧ (RealtimeNote.removeClient 4
        ⟨[4], false, true, false, false, [], true, []⟩).inRegistry = false)
    ∧ RealtimeNote.removeClient 4
        ⟨[4, 5], false, true, false, false, [], true, []⟩
      = ⟨[5], false, true, false, false, [], true, []⟩ := by
  have h1 := (realtimeNote_removeClient_spec
    ⟨[4], false, true, false, false, [], true, []⟩ 4).1 (by decide) rfl
  have h2 := (realtimeNote_removeClient_spec
    ⟨[4, 5], false, true, false, false, [], true, []⟩ 4).2
    (Or.inl (by decide))
  refine ⟨⟨h1.1, h1.2.2.2⟩, ?_⟩
  rw [h2]
  decide

end HedgeDoc

namespace HedgeDoc

/-- The `forEach` in `distributeYDocUpdate` appends one send call per
client other than the origin, in set order. -/
theorem distribute_fold_sendCalls (u : List Nat) (o : Nat) :
    ∀ (l : List Nat) (w : NoteWorld),
      (l.foldl
        (fun acc client =>
          if o ≠ client then
            RealtimeNote.sendTo client (Frame.syncUpdate u) acc
          else acc)
        w).sendCalls
      = w.sendCalls
        ++ (l.filter (fun c => o ≠ c)).map
            (fun c => (c, Frame.syncUpdate u)) := by
  intro l
  induction l with
  | nil => intro w; simp
  | cons a l ih =>
    intro w
    rw [List.foldl_cons]
    by_cases ha : o ≠ a
    · simp only [ha, if_pos, List.filter_cons]
      rw [ih]
      simp [RealtimeNote.sendTo, ha]
    · simp only [ha, if_neg, List.filter_cons]
      rw [ih]
      simp [ha]

/-- Counterexample to claim C2 as stated: a hub with connections 1 and 2
where connection 2 has not completed the initial sync (the source tracks
no synced flag, so the all-unsynced assignment is consistent with any
hub).  A doc update from origin 1 is nevertheless sent to connection 2,
while the specified target set is empty. -/
theorem websocketDoc_unsynced_receives_update :
    (2, Frame.syncUpdate [7]) ∈
        (WebsocketDoc.emitUpdate
          ⟨[1, 2], false, true, false, false, [], true, []⟩ [7] 1).sendCalls
    ∧ (fun _ => false) 2 = false
    ∧ specBroadcastTargets [1, 2] (fun _ => false) 1 = [] := by
  decide

/-- Claim C2 (amended): on a doc update event of a live hub,
`distributeYDocUpdate` sends the encoded SYNC-UPDATE frame to exactly the
connections in the set other than the origin — there is no `isSynced()`
gate, so connections that have not completed the initial sync receive the
update as well. -/
theorem websocketDoc_distributeYDocUpdate_targets
    (w : NoteWorld) (u : List Nat) (o c : Nat)
    (hobs : w.docObserverActive = true) :
    (c, Frame.syncUpdate u) ∈ (WebsocketDoc.emitUpdate w u o).sendCalls
      ↔ (c, Frame.syncUpdate u) ∈ w.sendCalls
        ∨ (c ∈ w.clients ∧ c ≠ o) := by
  rw [WebsocketDoc.emitUpdate]
  simp only [hobs, if_pos]
  rw [WebsocketDoc.distributeYDocUpdate]
  simp only [distribute_fold_sendCalls]
  simp [List.mem_filter, ne_comm]

/-- Witness for C2 (amended): in a live hub with connections 1 and 2, the
update from origin 1 is sent to 2 and not to 1. -/
theorem websocketDoc_distributeYDocUpdate_targets_witness :
    ((2, Frame.syncUpdate [7]) ∈
        (WebsocketDoc.emitUpdate
          ⟨[1, 2], false, true, false, false, [], true, []⟩ [7] 1).sendCalls
      ↔ (2, Frame.syncUpdate [7]) ∈ ([] : List (Nat × Frame))
        ∨ (2 ∈ [1, 2] ∧ 2 ≠ 1))
    ∧ ¬ (1, Frame.syncUpdate [7]) ∈
        (WebsocketDoc.emitUpdate
          ⟨[1, 2], false, true, false, false, [], true, []⟩ [7] 1).sendCalls :=
  ⟨websocketDoc_distributeYDocUpdate_targets
      ⟨[1, 2], false, true, false, false, [], true, []⟩ [7] 1 2 rfl,
   fun h =>
    by
      have := (websocketDoc_distributeYDocUpdate_targets
        ⟨[1, 2], false, true, false, false, [], true, []⟩ [7] 1 1 rfl).mp h
      simp at this⟩

/-- Claim C1 evaluated at the failing schedule: two concurrent
`getOrCreateRealtimeNote("noteA", loader)` calls that both pass the map
lookup before either has inserted (the lookup and the insert are
separated by the `await` of the loader).  The loader runs twice, two hubs
are created and inserted (the second insertion overwriting the first),
and the callers receive two distinct hubs. -/
theorem getOrCreateRealtimeNote_race_eval :
    RealtimeNoteService.runTwo "noteA"
        ⟨RealtimeNoteService.empty, CallPhase.started, CallPhase.started⟩
        [Caller.callerA, Caller.callerB, Caller.callerA, Caller.callerB]
      = ⟨⟨[("noteA", 1)], 2, 2, 2⟩, CallPhase.done 0, CallPhase.done 1⟩
    ∧ CallPhase.done 0 ≠ CallPhase.done 1 := by
  decide

end HedgeDoc

